import Mathlib

/-!
Shallow embedding of the Mergington High School activities service
(`src/app.py`): a FastAPI application over two SQLite tables, `Activity`
and `Participant`.  The database state is modelled as the pair of the two
tables (rows in insertion order), the endpoints `signup_for_activity` and
`unregister_from_activity` as pure functions from a state to either an
HTTP error or a new state with a confirmation message, and the seeder
`seed_initial_activities` as a function on states.
-/

/-- Row of the `Activity` table (`class Activity(SQLModel)` in `app.py`):
integer primary key, unique name, description, schedule and capacity. -/
structure Activity where
  id : Nat
  name : String
  description : String
  schedule : String
  max_participants : Nat
  deriving Repr, DecidableEq

/-- Row of the `Participant` table (`class Participant(SQLModel)` in
`app.py`): integer primary key, foreign key into `Activity`, email. -/
structure Participant where
  id : Nat
  activity_id : Nat
  email : String
  deriving Repr, DecidableEq

/-- The persistent database state: the rows of the two tables, in
insertion order (SQLite returns rows of these queries in rowid order). -/
structure DBState where
  activities : List Activity
  participants : List Participant
  deriving Repr, DecidableEq

/-- The four `HTTPException` raise sites of `app.py`, one constructor per
raise statement. -/
inductive ApiError where
  | activityNotFound
  | alreadySignedUp
  | activityFull
  | notSignedUp
  deriving Repr, DecidableEq

/-- The `status_code` argument of each `HTTPException` in `app.py`. -/
def ApiError.status : ApiError → Nat
  | .activityNotFound => 404
  | .alreadySignedUp => 400
  | .activityFull => 400
  | .notSignedUp => 400

/-- The `detail` argument of each `HTTPException` in `app.py`. -/
def ApiError.detail : ApiError → String
  | .activityNotFound => "Activity not found"
  | .alreadySignedUp => "Student is already signed up"
  | .activityFull => "Activity is full"
  | .notSignedUp => "Student is not signed up for this activity"

/-- Error kinds of section 7 of the spec. -/
inductive ErrorKind where
  | NotFound
  | Conflict
  | CapacityExceeded
  deriving Repr, DecidableEq

/-- Modelled from the spec: the error-kind classification of section 7,
"NotFound (unknown activity or unknown signup), Conflict (duplicate
signup), CapacityExceeded (activity full)".  The code itself carries only
the HTTP status and detail string of each error. -/
def ApiError.kind : ApiError → ErrorKind
  | .activityNotFound => .NotFound
  | .notSignedUp => .NotFound
  | .alreadySignedUp => .Conflict
  | .activityFull => .CapacityExceeded

/-- `session.exec(select(Activity).where(Activity.name == activity_name)).first()`:
the first `Activity` row whose name equals `activity_name`. -/
def findActivity (s : DBState) (activity_name : String) : Option Activity :=
  s.activities.find? (fun a => a.name == activity_name)

/-- `session.exec(select(Participant).where(Participant.activity_id == aid)).all()`:
all `Participant` rows of the given activity. -/
def participantsOf (ps : List Participant) (aid : Nat) : List Participant :=
  ps.filter (fun p => p.activity_id == aid)

/-- The participant rows of activity `aid` in state `s`. -/
def activityParticipants (s : DBState) (aid : Nat) : List Participant :=
  participantsOf s.participants aid

/-- The rowid SQLite assigns to a newly inserted `Participant` row:
one more than the largest existing rowid. -/
def freshParticipantId (s : DBState) : Nat :=
  (s.participants.map Participant.id).foldr max 0 + 1

/-- The `WHERE` clause of the unregister query:
`Participant.activity_id == activity.id, Participant.email == email`. -/
def participantMatches (aid : Nat) (email : String) (p : Participant) : Bool :=
  p.activity_id == aid && p.email == email

/-- `session.exec(select(Participant).where(...)).first()`: the first
`Participant` row of activity `aid` with the given email. -/
def findParticipant (s : DBState) (aid : Nat) (email : String) : Option Participant :=
  s.participants.find? (participantMatches aid email)

/-- `POST /activities/{activity_name}/signup` (`signup_for_activity` in
`app.py`): 404 if no activity of that name; 400 if the email is already
among the activity's participants; 400 if the activity is at capacity;
otherwise insert one `Participant` row and return the confirmation. -/
def signup_for_activity (s : DBState) (activity_name email : String) :
    Except ApiError (DBState × String) :=
  match findActivity s activity_name with
  | none => .error .activityNotFound
  | some activity =>
      if email ∈ (activityParticipants s activity.id).map Participant.email then
        .error .alreadySignedUp
      else if (activityParticipants s activity.id).length ≥ activity.max_participants then
        .error .activityFull
      else
        .ok ({ s with participants :=
                 s.participants ++ [⟨freshParticipantId s, activity.id, email⟩] },
             "Signed up " ++ email ++ " for " ++ activity_name)

/-- `DELETE /activities/{activity_name}/unregister`
(`unregister_from_activity` in `app.py`): 404 if no activity of that
name; 400 if no `Participant` row matches (activity, email); otherwise
delete that row and return the confirmation. -/
def unregister_from_activity (s : DBState) (activity_name email : String) :
    Except ApiError (DBState × String) :=
  match findActivity s activity_name with
  | none => .error .activityNotFound
  | some activity =>
      match findParticipant s activity.id email with
      | none => .error .notSignedUp
      | some _ =>
          .ok ({ s with participants :=
                   s.participants.eraseP (participantMatches activity.id email) },
               "Unregistered " ++ email ++ " from " ++ activity_name)

/-- The state after an endpoint call: the new state on success, the old
state on an `HTTPException` (the session is rolled back, nothing was
committed). -/
def stateAfter (s : DBState) (r : Except ApiError (DBState × String)) : DBState :=
  match r with
  | .ok (s2, _) => s2
  | .error _ => s

/-- One entry of the `initial` dict in `seed_initial_activities`. -/
structure SeedEntry where
  name : String
  description : String
  schedule : String
  max_participants : Nat
  participants : List String
  deriving Repr, DecidableEq

/-- The `initial` dict of `seed_initial_activities`, in insertion order. -/
def initialCatalog : List SeedEntry := [
  ⟨"Chess Club",
   "Learn strategies and compete in chess tournaments",
   "Fridays, 3:30 PM - 5:00 PM", 12,
   ["michael@mergington.edu", "daniel@mergington.edu"]⟩,
  ⟨"Programming Class",
   "Learn programming fundamentals and build software projects",
   "Tuesdays and Thursdays, 3:30 PM - 4:30 PM", 20,
   ["emma@mergington.edu", "sophia@mergington.edu"]⟩,
  ⟨"Gym Class",
   "Physical education and sports activities",
   "Mondays, Wednesdays, Fridays, 2:00 PM - 3:00 PM", 30,
   ["john@mergington.edu", "olivia@mergington.edu"]⟩,
  ⟨"Soccer Team",
   "Join the school soccer team and compete in matches",
   "Tuesdays and Thursdays, 4:00 PM - 5:30 PM", 22,
   ["liam@mergington.edu", "noah@mergington.edu"]⟩,
  ⟨"Basketball Team",
   "Practice and play basketball with the school team",
   "Wednesdays and Fridays, 3:30 PM - 5:00 PM", 15,
   ["ava@mergington.edu", "mia@mergington.edu"]⟩,
  ⟨"Art Club",
   "Explore your creativity through painting and drawing",
   "Thursdays, 3:30 PM - 5:00 PM", 15,
   ["amelia@mergington.edu", "harper@mergington.edu"]⟩,
  ⟨"Drama Club",
   "Act, direct, and produce plays and performances",
   "Mondays and Wednesdays, 4:00 PM - 5:30 PM", 20,
   ["ella@mergington.edu", "scarlett@mergington.edu"]⟩,
  ⟨"Math Club",
   "Solve challenging problems and participate in math competitions",
   "Tuesdays, 3:30 PM - 4:30 PM", 10,
   ["james@mergington.edu", "benjamin@mergington.edu"]⟩,
  ⟨"Debate Team",
   "Develop public speaking and argumentation skills",
   "Fridays, 4:00 PM - 5:30 PM", 12,
   ["charlotte@mergington.edu", "henry@mergington.edu"]⟩]

/-- The `Participant` rows seeded for one activity: one row per email,
with consecutive rowids starting at `pid`. -/
def mkParticipants (aid pid : Nat) : List String → List Participant
  | [] => []
  | email :: rest => ⟨pid, aid, email⟩ :: mkParticipants aid (pid + 1) rest

/-- The rows inserted by the seeding loop for the given entries, with
activity rowids starting at `aid` and participant rowids at `pid`. -/
def seedRows : List SeedEntry → Nat → Nat → List Activity × List Participant
  | [], _, _ => ([], [])
  | e :: rest, aid, pid =>
      let tail := seedRows rest (aid + 1) (pid + e.participants.length)
      (⟨aid, e.name, e.description, e.schedule, e.max_participants⟩ :: tail.1,
       mkParticipants aid pid e.participants ++ tail.2)

/-- `seed_initial_activities` in `app.py`: if any `Activity` row exists,
do nothing; otherwise insert the catalog of 9 activities and their
participants (rowids start at 1 on an empty table). -/
def seed_initial_activities (s : DBState) : DBState :=
  if s.activities.isEmpty then
    { activities := s.activities ++ (seedRows initialCatalog 1 1).1,
      participants := s.participants ++ (seedRows initialCatalog 1 1).2 }
  else s

/-- The state of a freshly created database: both tables empty. -/
def emptyState : DBState := ⟨[], []⟩

/-- The state after the startup handler ran on a fresh database. -/
def initialState : DBState := seed_initial_activities emptyState

/-- The states reachable from the seeded initial state by successful
signup and unregister calls (failed calls leave the state unchanged). -/
inductive Reachable : DBState → Prop where
  | init : Reachable initialState
  | signup (s s2 : DBState) (activity_name email msg : String) :
      Reachable s →
      signup_for_activity s activity_name email = .ok (s2, msg) →
      Reachable s2
  | unregister (s s2 : DBState) (activity_name email msg : String) :
      Reachable s →
      unregister_from_activity s activity_name email = .ok (s2, msg) →
      Reachable s2

/-! ### Helper lemmas -/

/-- A successful `find?` splits the list at the first match. -/
theorem find?_split {α : Type _} {pr : α → Bool} {l : List α} {a : α}
    (h : l.find? pr = some a) :
    ∃ l1 l2, l = l1 ++ a :: l2 ∧ ∀ b ∈ l1, ¬ pr b = true := by
  induction l with
  | nil => simp at h
  | cons x xs ih =>
    by_cases hx : pr x
    · rw [List.find?_cons_of_pos _ hx] at h
      obtain rfl : x = a := by injection h
      exact ⟨[], xs, rfl, by simp⟩
    · rw [List.find?_cons_of_neg _ hx] at h
      obtain ⟨l1, l2, hsplit, hl1⟩ := ih h
      refine ⟨x :: l1, l2, by rw [hsplit, List.cons_append], ?_⟩
      intro b hb
      rcases List.mem_cons.mp hb with rfl | hb
      · exact hx
      · exact hl1 b hb

/-- If an email is not among the participants of activity `aid`, then no
row of the whole table matches `(aid, email)`. -/
theorem no_match_of_email_not_mem {ps : List Participant} {aid : Nat} {email : String}
    (h : email ∉ (participantsOf ps aid).map Participant.email) :
    ∀ q ∈ ps, ¬(q.activity_id = aid ∧ q.email = email) := by
  rintro q hq ⟨h1, h2⟩
  exact h (List.mem_map.mpr ⟨q, List.mem_filter.mpr ⟨hq, by simp [h1]⟩, h2⟩)

/-- Boolean form of `no_match_of_email_not_mem`. -/
theorem no_bmatch_of_email_not_mem {ps : List Participant} {aid : Nat} {email : String}
    (h : email ∉ (participantsOf ps aid).map Participant.email) :
    ∀ q ∈ ps, ¬ participantMatches aid email q = true := by
  intro q hq hb
  simp only [participantMatches, Bool.and_eq_true, beq_iff_eq] at hb
  exact no_match_of_email_not_mem h q hq hb

/-- Inversion of a successful signup: the activity was found, the email
was not yet signed up, the activity was below capacity, and the new state
is the old one with exactly one `Participant` row appended. -/
theorem signup_ok_inv {s s2 : DBState} {activity_name email msg : String}
    (h : signup_for_activity s activity_name email = .ok (s2, msg)) :
    ∃ a, findActivity s activity_name = some a ∧
      email ∉ (activityParticipants s a.id).map Participant.email ∧
      (activityParticipants s a.id).length < a.max_participants ∧
      s2 = { s with participants :=
               s.participants ++ [⟨freshParticipantId s, a.id, email⟩] } ∧
      msg = "Signed up " ++ email ++ " for " ++ activity_name := by
  unfold signup_for_activity at h
  split at h
  next => cases h
  next a hf =>
    refine ⟨a, hf, ?_⟩
    split at h
    next => cases h
    next hmem =>
      split at h
      next => cases h
      next hcap =>
        injection h with h
        injection h with h1 h2
        exact ⟨hmem, Nat.lt_of_not_le hcap, h1.symm, h2.symm⟩

/-- Inversion of a successful unregister: the activity was found, a
matching `Participant` row was found, and the new state is the old one
with the first matching row erased. -/
theorem unregister_ok_inv {s s2 : DBState} {activity_name email msg : String}
    (h : unregister_from_activity s activity_name email = .ok (s2, msg)) :
    ∃ a p, findActivity s activity_name = some a ∧
      findParticipant s a.id email = some p ∧
      s2 = { s with participants :=
               s.participants.eraseP (participantMatches a.id email) } ∧
      msg = "Unregistered " ++ email ++ " from " ++ activity_name := by
  unfold unregister_from_activity at h
  split at h
  next => cases h
  next a hf =>
    split at h
    next => cases h
    next p hp =>
      injection h with h
      injection h with h1 h2
      exact ⟨a, p, hf, hp, h1.symm, h2.symm⟩

/-- Successful operations never touch the `Activity` table, so every
reachable state carries exactly the seeded activities. -/
theorem reachable_activities {s : DBState} (h : Reachable s) :
    s.activities = initialState.activities := by
  induction h with
  | init => rfl
  | signup s s2 an email msg hr hok ih =>
      obtain ⟨a, -, -, -, hs2, -⟩ := signup_ok_inv hok
      rw [hs2]; exact ih
  | unregister s s2 an email msg hr hok ih =>
      obtain ⟨a, p, -, -, hs2, -⟩ := unregister_ok_inv hok
      rw [hs2]; exact ih

/-- The seeded activities have pairwise distinct ids. -/
theorem initial_ids_inj :
    ∀ a ∈ initialState.activities, ∀ b ∈ initialState.activities,
      a.id = b.id → a = b := by decide

/-- Appending one participant of a strictly-below-capacity activity
preserves the capacity bound for every activity (given distinct ids). -/
theorem capacity_step {acts : List Activity} {ps : List Participant} {a0 : Activity}
    {email : String} {pid : Nat}
    (hids : ∀ a ∈ acts, ∀ b ∈ acts, a.id = b.id → a = b)
    (ha0 : a0 ∈ acts)
    (hcap : (participantsOf ps a0.id).length < a0.max_participants)
    (ih : ∀ a ∈ acts, (participantsOf ps a.id).length ≤ a.max_participants) :
    ∀ a ∈ acts,
      (participantsOf (ps ++ [⟨pid, a0.id, email⟩]) a.id).length ≤ a.max_participants := by
  intro b hb
  simp only [participantsOf, List.filter_append, List.length_append]
  by_cases hid : a0.id = b.id
  · obtain rfl : a0 = b := hids a0 ha0 b hb hid
    simp only [List.filter, hid, beq_self_eq_true, List.length_cons, List.length_nil]
    simpa [participantsOf] using hcap
  · have : ((⟨pid, a0.id, email⟩ : Participant).activity_id == b.id) = false := by
      simp [hid]
    simp only [List.filter, this, List.length_nil, Nat.add_zero]
    exact ih b hb

/-- Appending a participant whose email is not yet signed up for the
activity preserves uniqueness of `(activity_id, email)` pairs. -/
theorem unique_step {ps : List Participant} {aid pid : Nat} {email : String}
    (hmem : email ∉ (participantsOf ps aid).map Participant.email)
    (ih : ps.Pairwise (fun p q => ¬(p.activity_id = q.activity_id ∧ p.email = q.email))) :
    (ps ++ [(⟨pid, aid, email⟩ : Participant)]).Pairwise
      (fun p q => ¬(p.activity_id = q.activity_id ∧ p.email = q.email)) := by
  rw [List.pairwise_append]
  refine ⟨ih, List.pairwise_singleton _ _, ?_⟩
  intro q hq b hb
  obtain rfl := List.mem_singleton.mp hb
  exact no_match_of_email_not_mem hmem q hq

/-! ### Claim theorems -/

/-- C1: In every state reachable from the seeded initial state by any
sequence of signup and unregister operations, every activity's
participant count is at most its `max_participants`. -/
theorem capacity_invariant {s : DBState} (h : Reachable s) :
    ∀ a ∈ s.activities, (activityParticipants s a.id).length ≤ a.max_participants := by
  induction h with
  | init => decide
  | signup s s2 an email msg hr hok ih =>
      obtain ⟨a0, hf, hmem, hcap, hs2, -⟩ := signup_ok_inv hok
      have hids : ∀ a ∈ s.activities, ∀ b ∈ s.activities, a.id = b.id → a = b := by
        rw [reachable_activities hr]; exact initial_ids_inj
      have ha0 : a0 ∈ s.activities := List.mem_of_find?_eq_some hf
      subst hs2
      exact capacity_step hids ha0 hcap ih
  | unregister s s2 an email msg hr hok ih =>
      obtain ⟨a0, p, hf, hp, hs2, -⟩ := unregister_ok_inv hok
      subst hs2
      intro b hb
      have hsub := (List.eraseP_sublist (p := participantMatches a0.id email)
        s.participants).filter (fun q => q.activity_id == b.id)
      exact le_trans hsub.length_le (ih b hb)

/-- C1 witness: the capacity bound holds for the seeded Chess Club row
in the seeded initial state. -/
theorem capacity_invariant_witness :
    (activityParticipants initialState (Activity.mk 1 "Chess Club"
        "Learn strategies and compete in chess tournaments"
        "Fridays, 3:30 PM - 5:00 PM" 12).id).length
      ≤ (Activity.mk 1 "Chess Club"
        "Learn strategies and compete in chess tournaments"
        "Fridays, 3:30 PM - 5:00 PM" 12).max_participants :=
  capacity_invariant Reachable.init
    (Activity.mk 1 "Chess Club"
      "Learn strategies and compete in chess tournaments"
      "Fridays, 3:30 PM - 5:00 PM" 12) (by decide)

/-- C2: In every state reachable from the seeded initial state by any
sequence of signup and unregister operations, no `(activity_id, email)`
pair occurs in more than one `Participant` row. -/
theorem unique_signup_invariant {s : DBState} (h : Reachable s) :
    s.participants.Pairwise
      (fun p q => ¬(p.activity_id = q.activity_id ∧ p.email = q.email)) := by
  induction h with
  | init => decide
  | signup s s2 an email msg hr hok ih =>
      obtain ⟨a0, hf, hmem, -, hs2, -⟩ := signup_ok_inv hok
      subst hs2
      exact unique_step hmem ih
  | unregister s s2 an email msg hr hok ih =>
      obtain ⟨a0, p, -, -, hs2, -⟩ := unregister_ok_inv hok
      subst hs2
      exact List.Pairwise.sublist (List.eraseP_sublist s.participants) ih

/-- C2 witness: uniqueness of `(activity_id, email)` pairs holds in the
seeded initial state. -/
theorem unique_signup_invariant_witness :
    initialState.participants.Pairwise
      (fun p q => ¬(p.activity_id = q.activity_id ∧ p.email = q.email)) :=
  unique_signup_invariant Reachable.init

/-- C3: If no `Activity` row has the requested name, both signup and
unregister fail with the 404 "Activity not found" error (the spec's
NotFound) and leave the state unchanged. -/
theorem unknown_activity_404 (s : DBState) (activity_name email : String)
    (h : ∀ a ∈ s.activities, a.name ≠ activity_name) :
    signup_for_activity s activity_name email = .error .activityNotFound ∧
    unregister_from_activity s activity_name email = .error .activityNotFound ∧
    stateAfter s (signup_for_activity s activity_name email) = s ∧
    stateAfter s (unregister_from_activity s activity_name email) = s ∧
    ApiError.activityNotFound.status = 404 ∧
    ApiError.activityNotFound.kind = .NotFound := by
  have hf : findActivity s activity_name = none :=
    List.find?_eq_none.mpr (fun a ha => by simpa using h a ha)
  have h1 : signup_for_activity s activity_name email = .error .activityNotFound := by
    unfold signup_for_activity; rw [hf]
  have h2 : unregister_from_activity s activity_name email = .error .activityNotFound := by
    unfold unregister_from_activity; rw [hf]
  exact ⟨h1, h2, by rw [h1]; rfl, by rw [h2]; rfl, rfl, rfl⟩

/-- C3 witness: looking up an activity name absent from the seeded
catalog fails both endpoints with 404 and changes nothing. -/
theorem unknown_activity_404_witness :
    (∀ a ∈ initialState.activities, a.name ≠ "Knitting Club") ∧
    (signup_for_activity initialState "Knitting Club" "kai@mergington.edu"
        = .error .activityNotFound ∧
     unregister_from_activity initialState "Knitting Club" "kai@mergington.edu"
        = .error .activityNotFound ∧
     stateAfter initialState
        (signup_for_activity initialState "Knitting Club" "kai@mergington.edu")
        = initialState ∧
     stateAfter initialState
        (unregister_from_activity initialState "Knitting Club" "kai@mergington.edu")
        = initialState ∧
     ApiError.activityNotFound.status = 404 ∧
     ApiError.activityNotFound.kind = .NotFound) :=
  ⟨by decide,
   unknown_activity_404 initialState "Knitting Club" "kai@mergington.edu" (by decide)⟩

/-- C4: If the named activity exists and the email is already among its
participants, signup fails with the 400 "Student is already signed up"
error (the spec's Conflict) and leaves the state unchanged. -/
theorem signup_conflict (s : DBState) (activity_name email : String) (a : Activity)
    (hf : findActivity s activity_name = some a)
    (hmem : email ∈ (activityParticipants s a.id).map Participant.email) :
    signup_for_activity s activity_name email = .error .alreadySignedUp ∧
    stateAfter s (signup_for_activity s activity_name email) = s ∧
    ApiError.alreadySignedUp.status = 400 ∧
    ApiError.alreadySignedUp.kind = .Conflict := by
  have h1 : signup_for_activity s activity_name email = .error .alreadySignedUp := by
    simp [signup_for_activity, hf, hmem]
  exact ⟨h1, by rw [h1]; rfl, rfl, rfl⟩

/-- C4 witness: a duplicate signup on a concrete one-activity state is
rejected with Conflict and the state is untouched. -/
theorem signup_conflict_witness :
    (findActivity ⟨[⟨1, "A", "", "", 2⟩], [⟨1, 1, "e1"⟩, ⟨2, 1, "e2"⟩]⟩ "A"
        = some ⟨1, "A", "", "", 2⟩ ∧
     "e1" ∈ (activityParticipants
        ⟨[⟨1, "A", "", "", 2⟩], [⟨1, 1, "e1"⟩, ⟨2, 1, "e2"⟩]⟩
        (Activity.mk 1 "A" "" "" 2).id).map Participant.email) ∧
    (signup_for_activity ⟨[⟨1, "A", "", "", 2⟩], [⟨1, 1, "e1"⟩, ⟨2, 1, "e2"⟩]⟩ "A" "e1"
        = .error .alreadySignedUp ∧
     stateAfter ⟨[⟨1, "A", "", "", 2⟩], [⟨1, 1, "e1"⟩, ⟨2, 1, "e2"⟩]⟩
        (signup_for_activity ⟨[⟨1, "A", "", "", 2⟩], [⟨1, 1, "e1"⟩, ⟨2, 1, "e2"⟩]⟩ "A" "e1")
        = ⟨[⟨1, "A", "", "", 2⟩], [⟨1, 1, "e1"⟩, ⟨2, 1, "e2"⟩]⟩ ∧
     ApiError.alreadySignedUp.status = 400 ∧
     ApiError.alreadySignedUp.kind = .Conflict) :=
  ⟨⟨by decide, by decide⟩,
   signup_conflict ⟨[⟨1, "A", "", "", 2⟩], [⟨1, 1, "e1"⟩, ⟨2, 1, "e2"⟩]⟩ "A" "e1"
     ⟨1, "A", "", "", 2⟩ (by decide) (by decide)⟩

/-- C5: If the named activity exists, the email is not yet signed up, and
the participant count has reached `max_participants`, signup fails with
the 400 "Activity is full" error (the spec's CapacityExceeded) and leaves
the state unchanged. -/
theorem signup_capacity_exceeded (s : DBState) (activity_name email : String) (a : Activity)
    (hf : findActivity s activity_name = some a)
    (hmem : email ∉ (activityParticipants s a.id).map Participant.email)
    (hcap : (activityParticipants s a.id).length ≥ a.max_participants) :
    signup_for_activity s activity_name email = .error .activityFull ∧
    stateAfter s (signup_for_activity s activity_name email) = s ∧
    ApiError.activityFull.status = 400 ∧
    ApiError.activityFull.kind = .CapacityExceeded := by
  have h1 : signup_for_activity s activity_name email = .error .activityFull := by
    simp [signup_for_activity, hf, hmem, hcap]
  exact ⟨h1, by rw [h1]; rfl, rfl, rfl⟩

/-- C5 witness: signing a third email up for a full two-seat activity is
rejected with CapacityExceeded and the state is untouched. -/
theorem signup_capacity_exceeded_witness :
    (findActivity ⟨[⟨1, "A", "", "", 2⟩], [⟨1, 1, "e1"⟩, ⟨2, 1, "e2"⟩]⟩ "A"
        = some ⟨1, "A", "", "", 2⟩ ∧
     "e3" ∉ (activityParticipants
        ⟨[⟨1, "A", "", "", 2⟩], [⟨1, 1, "e1"⟩, ⟨2, 1, "e2"⟩]⟩
        (Activity.mk 1 "A" "" "" 2).id).map Participant.email ∧
     (activityParticipants ⟨[⟨1, "A", "", "", 2⟩], [⟨1, 1, "e1"⟩, ⟨2, 1, "e2"⟩]⟩
        (Activity.mk 1 "A" "" "" 2).id).length ≥ (Activity.mk 1 "A" "" "" 2).max_participants) ∧
    (signup_for_activity ⟨[⟨1, "A", "", "", 2⟩], [⟨1, 1, "e1"⟩, ⟨2, 1, "e2"⟩]⟩ "A" "e3"
        = .error .activityFull ∧
     stateAfter ⟨[⟨1, "A", "", "", 2⟩], [⟨1, 1, "e1"⟩, ⟨2, 1, "e2"⟩]⟩
        (signup_for_activity ⟨[⟨1, "A", "", "", 2⟩], [⟨1, 1, "e1"⟩, ⟨2, 1, "e2"⟩]⟩ "A" "e3")
        = ⟨[⟨1, "A", "", "", 2⟩], [⟨1, 1, "e1"⟩, ⟨2, 1, "e2"⟩]⟩ ∧
     ApiError.activityFull.status = 400 ∧
     ApiError.activityFull.kind = .CapacityExceeded) :=
  ⟨⟨by decide, by decide, by decide⟩,
   signup_capacity_exceeded ⟨[⟨1, "A", "", "", 2⟩], [⟨1, 1, "e1"⟩, ⟨2, 1, "e2"⟩]⟩ "A" "e3"
     ⟨1, "A", "", "", 2⟩ (by decide) (by decide) (by decide)⟩

/-- C6: If the named activity exists but no `Participant` row matches
(that activity, email), unregister fails with the 400 "Student is not
signed up for this activity" error (a NotFound in the spec's error-kind
classification) and leaves the state unchanged. -/
theorem unregister_not_signed_up (s : DBState) (activity_name email : String) (a : Activity)
    (hf : findActivity s activity_name = some a)
    (hnone : ∀ p ∈ s.participants, ¬(p.activity_id = a.id ∧ p.email = email)) :
    unregister_from_activity s activity_name email = .error .notSignedUp ∧
    stateAfter s (unregister_from_activity s activity_name email) = s ∧
    ApiError.notSignedUp.status = 400 ∧
    ApiError.notSignedUp.kind = .NotFound := by
  have hp : findParticipant s a.id email = none :=
    List.find?_eq_none.mpr
      (fun p hpm => by simpa [participantMatches] using hnone p hpm)
  have h1 : unregister_from_activity s activity_name email = .error .notSignedUp := by
    simp [unregister_from_activity, hf, hp]
  exact ⟨h1, by rw [h1]; rfl, rfl, rfl⟩

/-- C6 witness: unregistering an email with no signup row on a concrete
state is rejected and the state is untouched. -/
theorem unregister_not_signed_up_witness :
    (findActivity ⟨[⟨1, "A", "", "", 2⟩], [⟨1, 1, "e1"⟩]⟩ "A" = some ⟨1, "A", "", "", 2⟩ ∧
     ∀ p ∈ (⟨[⟨1, "A", "", "", 2⟩], [⟨1, 1, "e1"⟩]⟩ : DBState).participants,
       ¬(p.activity_id = (Activity.mk 1 "A" "" "" 2).id ∧ p.email = "e3")) ∧
    (unregister_from_activity ⟨[⟨1, "A", "", "", 2⟩], [⟨1, 1, "e1"⟩]⟩ "A" "e3"
        = .error .notSignedUp ∧
     stateAfter ⟨[⟨1, "A", "", "", 2⟩], [⟨1, 1, "e1"⟩]⟩
        (unregister_from_activity ⟨[⟨1, "A", "", "", 2⟩], [⟨1, 1, "e1"⟩]⟩ "A" "e3")
        = ⟨[⟨1, "A", "", "", 2⟩], [⟨1, 1, "e1"⟩]⟩ ∧
     ApiError.notSignedUp.status = 400 ∧
     ApiError.notSignedUp.kind = .NotFound) :=
  ⟨⟨by decide, by decide⟩,
   unregister_not_signed_up ⟨[⟨1, "A", "", "", 2⟩], [⟨1, 1, "e1"⟩]⟩ "A" "e3"
     ⟨1, "A", "", "", 2⟩ (by decide) (by decide)⟩

/-- C7: If the named activity exists, the email is not among its
participants, and its participant count is strictly below
`max_participants`, signup succeeds: it returns the confirmation message
and the new state is the old one with exactly one new `Participant` row
linking that activity's id to the email appended, the other rows and the
`Activity` table unchanged. -/
theorem signup_success (s : DBState) (activity_name email : String) (a : Activity)
    (hf : findActivity s activity_name = some a)
    (hmem : email ∉ (activityParticipants s a.id).map Participant.email)
    (hcap : (activityParticipants s a.id).length < a.max_participants) :
    signup_for_activity s activity_name email =
      .ok ({ activities := s.activities,
             participants := s.participants ++ [⟨freshParticipantId s, a.id, email⟩] },
           "Signed up " ++ email ++ " for " ++ activity_name) := by
  have hge : ¬((activityParticipants s a.id).length ≥ a.max_participants) :=
    Nat.not_le.mpr hcap
  simp [signup_for_activity, hf, hmem, hge]

/-- C7 witness: a signup below capacity on a concrete state inserts
exactly one new row and returns the confirmation. -/
theorem signup_success_witness :
    (findActivity ⟨[⟨1, "A", "", "", 2⟩], [⟨1, 1, "e1"⟩]⟩ "A" = some ⟨1, "A", "", "", 2⟩ ∧
     "e2" ∉ (activityParticipants ⟨[⟨1, "A", "", "", 2⟩], [⟨1, 1, "e1"⟩]⟩
        (Activity.mk 1 "A" "" "" 2).id).map Participant.email ∧
     (activityParticipants ⟨[⟨1, "A", "", "", 2⟩], [⟨1, 1, "e1"⟩]⟩
        (Activity.mk 1 "A" "" "" 2).id).length < (Activity.mk 1 "A" "" "" 2).max_participants) ∧
    signup_for_activity ⟨[⟨1, "A", "", "", 2⟩], [⟨1, 1, "e1"⟩]⟩ "A" "e2" =
      .ok ({ activities := [⟨1, "A", "", "", 2⟩],
             participants := [⟨1, 1, "e1"⟩] ++
               [⟨freshParticipantId ⟨[⟨1, "A", "", "", 2⟩], [⟨1, 1, "e1"⟩]⟩,
                 (Activity.mk 1 "A" "" "" 2).id, "e2"⟩] },
           "Signed up " ++ "e2" ++ " for " ++ "A") :=
  ⟨⟨by decide, by decide, by decide⟩,
   signup_success ⟨[⟨1, "A", "", "", 2⟩], [⟨1, 1, "e1"⟩]⟩ "A" "e2"
     ⟨1, "A", "", "", 2⟩ (by decide) (by decide) (by decide)⟩

/-- C8: If the named activity exists and a `Participant` row matches
(that activity, email), unregister succeeds: it returns the confirmation
message and the new state is the old one with exactly the first matching
`Participant` row removed, the other rows and the `Activity` table
unchanged. -/
theorem unregister_success (s : DBState) (activity_name email : String) (a : Activity)
    (hf : findActivity s activity_name = some a)
    (hex : ∃ q ∈ s.participants, q.activity_id = a.id ∧ q.email = email) :
    ∃ p l1 l2,
      s.participants = l1 ++ p :: l2 ∧
      p.activity_id = a.id ∧ p.email = email ∧
      (∀ q ∈ l1, ¬(q.activity_id = a.id ∧ q.email = email)) ∧
      unregister_from_activity s activity_name email =
        .ok ({ activities := s.activities, participants := l1 ++ l2 },
             "Unregistered " ++ email ++ " from " ++ activity_name) := by
  obtain ⟨q, hq, hq1, hq2⟩ := hex
  have hsome : (s.participants.find? (participantMatches a.id email)).isSome := by
    rw [List.find?_isSome]
    exact ⟨q, hq, by simp [participantMatches, hq1, hq2]⟩
  obtain ⟨p, hp⟩ := Option.isSome_iff_exists.mp hsome
  have hpm : participantMatches a.id email p = true := List.find?_some hp
  obtain ⟨l1, l2, hsplit, hl1⟩ := find?_split hp
  have hpm2 : p.activity_id = a.id ∧ p.email = email := by
    simpa [participantMatches] using hpm
  refine ⟨p, l1, l2, hsplit, hpm2.1, hpm2.2, ?_, ?_⟩
  · intro r hr hmatch
    exact hl1 r hr (by simp [participantMatches, hmatch.1, hmatch.2])
  · have herase : s.participants.eraseP (participantMatches a.id email) = l1 ++ l2 := by
      rw [hsplit, List.eraseP_append_right _ hl1, List.eraseP_cons_of_pos hpm]
    have hpfind : findParticipant s a.id email = some p := hp
    simp [unregister_from_activity, hf, hpfind, herase]

/-- C8 witness: unregistering a present email on a concrete state removes
exactly the matching row and returns the confirmation. -/
theorem unregister_success_witness :
    (findActivity ⟨[⟨1, "A", "", "", 2⟩], [⟨1, 1, "e1"⟩, ⟨2, 1, "e2"⟩]⟩ "A"
        = some ⟨1, "A", "", "", 2⟩ ∧
     ∃ q ∈ (⟨[⟨1, "A", "", "", 2⟩], [⟨1, 1, "e1"⟩, ⟨2, 1, "e2"⟩]⟩ : DBState).participants,
       q.activity_id = (Activity.mk 1 "A" "" "" 2).id ∧ q.email = "e2") ∧
    (∃ p l1 l2,
      (⟨[⟨1, "A", "", "", 2⟩], [⟨1, 1, "e1"⟩, ⟨2, 1, "e2"⟩]⟩ : DBState).participants
          = l1 ++ p :: l2 ∧
      p.activity_id = (Activity.mk 1 "A" "" "" 2).id ∧ p.email = "e2" ∧
      (∀ q ∈ l1, ¬(q.activity_id = (Activity.mk 1 "A" "" "" 2).id ∧ q.email = "e2")) ∧
      unregister_from_activity ⟨[⟨1, "A", "", "", 2⟩], [⟨1, 1, "e1"⟩, ⟨2, 1, "e2"⟩]⟩ "A" "e2" =
        .ok ({ activities :=
                 (⟨[⟨1, "A", "", "", 2⟩], [⟨1, 1, "e1"⟩, ⟨2, 1, "e2"⟩]⟩ : DBState).activities,
               participants := l1 ++ l2 },
             "Unregistered " ++ "e2" ++ " from " ++ "A")) :=
  ⟨⟨by decide, ⟨⟨2, 1, "e2"⟩, by decide, by decide, by decide⟩⟩,
   unregister_success ⟨[⟨1, "A", "", "", 2⟩], [⟨1, 1, "e1"⟩, ⟨2, 1, "e2"⟩]⟩ "A" "e2"
     ⟨1, "A", "", "", 2⟩ (by decide) ⟨⟨2, 1, "e2"⟩, by decide, by decide, by decide⟩⟩

/-- C9: On an empty store the seeder produces exactly 9 activities with
exactly 2 participants each; on any state that already has an `Activity`
row it is a no-op; hence seeding twice from empty leaves exactly 9
activities, not 18. -/
theorem seeder_spec :
    initialState.activities.length = 9 ∧
    (∀ a ∈ initialState.activities, (activityParticipants initialState a.id).length = 2) ∧
    (∀ s : DBState, s.activities ≠ [] → seed_initial_activities s = s) ∧
    seed_initial_activities initialState = initialState ∧
    (seed_initial_activities (seed_initial_activities emptyState)).activities.length = 9 := by
  refine ⟨by decide, by decide, ?_, by decide, by decide⟩
  intro s hne
  have hfalse : s.activities.isEmpty = false := by
    cases hact : s.activities
    · exact absurd hact hne
    · rfl
  simp [seed_initial_activities, hfalse]

/-- C9 witness: the seeder is a no-op on a concrete nonempty store. -/
theorem seeder_spec_witness :
    ((⟨[⟨1, "A", "", "", 2⟩], []⟩ : DBState).activities ≠ []) ∧
    seed_initial_activities ⟨[⟨1, "A", "", "", 2⟩], []⟩ = ⟨[⟨1, "A", "", "", 2⟩], []⟩ :=
  ⟨by decide, seeder_spec.2.2.1 ⟨[⟨1, "A", "", "", 2⟩], []⟩ (by decide)⟩

/-- C10: If signup succeeds in state `s` producing state `s2`, then
unregister of the same (activity_name, email) applied to `s2` succeeds
and returns exactly the state `s` (in particular the `Participant` table
of `s`): unregister undoes a successful signup exactly. -/
theorem signup_unregister_roundtrip {s s2 : DBState} {activity_name email msg : String}
    (h : signup_for_activity s activity_name email = .ok (s2, msg)) :
    unregister_from_activity s2 activity_name email =
      .ok (s, "Unregistered " ++ email ++ " from " ++ activity_name) := by
  obtain ⟨a, hf, hmem, hcap, hs2, -⟩ := signup_ok_inv h
  subst hs2
  have hf2 : findActivity
      { s with participants :=
          s.participants ++ [⟨freshParticipantId s, a.id, email⟩] } activity_name
      = some a := hf
  have hnone : s.participants.find? (participantMatches a.id email) = none :=
    List.find?_eq_none.mpr (no_bmatch_of_email_not_mem hmem)
  have hpmatch : participantMatches a.id email ⟨freshParticipantId s, a.id, email⟩ = true := by
    simp [participantMatches]
  have hfind2 : findParticipant
      { s with participants :=
          s.participants ++ [⟨freshParticipantId s, a.id, email⟩] } a.id email
      = some ⟨freshParticipantId s, a.id, email⟩ := by
    show (s.participants ++ [(⟨freshParticipantId s, a.id, email⟩ : Participant)]).find?
        (participantMatches a.id email) = some ⟨freshParticipantId s, a.id, email⟩
    rw [List.find?_append, hnone, Option.none_or, List.find?_cons_of_pos _ hpmatch]
  have herase : (s.participants ++ [(⟨freshParticipantId s, a.id, email⟩ : Participant)]).eraseP
      (participantMatches a.id email) = s.participants := by
    rw [List.eraseP_append_right _ (no_bmatch_of_email_not_mem hmem),
        List.eraseP_cons_of_pos hpmatch, List.append_nil]
  simp [unregister_from_activity, hf2, hfind2, herase]

/-- C10 witness: a concrete signup followed by the matching unregister
returns to the original state exactly. -/
theorem signup_unregister_roundtrip_witness :
    (signup_for_activity ⟨[⟨1, "A", "", "", 2⟩], [⟨1, 1, "e1"⟩]⟩ "A" "e2"
        = .ok (⟨[⟨1, "A", "", "", 2⟩], [⟨1, 1, "e1"⟩, ⟨2, 1, "e2"⟩]⟩,
               "Signed up e2 for A")) ∧
    unregister_from_activity ⟨[⟨1, "A", "", "", 2⟩], [⟨1, 1, "e1"⟩, ⟨2, 1, "e2"⟩]⟩ "A" "e2"
      = .ok (⟨[⟨1, "A", "", "", 2⟩], [⟨1, 1, "e1"⟩]⟩,
             "Unregistered " ++ "e2" ++ " from " ++ "A") :=
  ⟨rfl, signup_unregister_roundtrip rfl⟩
